import Mathlib

/-!
Verification development for the extraction-and-aggregation engine of
`instagram-hashtag-search.py` (`InstagramHashtagSearcher.search_hashtag_for_user`).

The Python function is shallowly embedded as a pure function over an explicit
`PageState` describing what the browser collaborators return: the navigation
outcome, the rendered page content, the results of the post-link locator
queries, and per candidate the results of the time-marker queries, the
text-element query, and which collaborator calls raise.

Embedding conventions (traced from the source, line numbers refer to
`src/instagram-hashtag-search.py`):
* `datetime.fromisoformat` is modelled by `fromiso`, following the strict
  pre-3.11 grammar actually enforced by CPython's C parser:
  `YYYY-MM-DD[<sep>HH[:MM[:SS[.fff|.ffffff]]][(+|-)HH:MM[:SS[.ffffff]]]]`,
  with field range validation, `\d` restricted to ASCII digits.  A datetime is
  a `PyDatetime`: wall-clock fields plus an optional UTC offset (microseconds);
  `tzOffset = none` models a naive datetime, `some off` an aware one.
* Python's `max(parsed_dates, key=lambda x: x[0])` is `pyMaxAux`: it keeps the
  first maximal element and, exactly like CPython, raises (`Except.error`) when
  an offset-naive and an offset-aware datetime are compared.  The model's
  error message spells "cannot" where CPython abbreviates it.
* `strftime('%Y-%m-%d %H:%M:%S')` is `fmtDate` (zero-padded fields).
* The regular expression probes of lines 168-172 are modelled over ASCII:
  `\d` as ASCII digit, `\s` as Python's ASCII whitespace class.
* Exceptions are modelled where the source can observe them: per-query raise
  flags (`QueryResult.raises`, `LinkQuery.raises`), per-candidate click/escape
  raise flags, and a `NavOutcome` for the navigation phase.  Playwright calls
  that only suspend (`wait_for_timeout`) are folded into the adjacent call's
  raise flag.
-/

namespace InstaHashtag

/-! ### Character and string helpers (ASCII fragment of the Python semantics) -/

def isDig (c : Char) : Bool := '0' ≤ c && c ≤ '9'

def digVal (c : Char) : Option Nat :=
  if isDig c then some (c.toNat - '0'.toNat) else none

/-- Python's ASCII whitespace class, as used by `str.strip` and `\s`. -/
def isSpacePy (c : Char) : Bool :=
  c = ' ' || c = '\t' || c = '\n' || c = '\r' || c = '\x0b' || c = '\x0c'

/-- Python `str.strip()` (ASCII whitespace). -/
def pyStrip (s : String) : String :=
  ⟨((s.data.dropWhile isSpacePy).reverse.dropWhile isSpacePy).reverse⟩

/-- If `needle` is an initial run of `l`, return the remainder. -/
def chopLead : List Char → List Char → Option (List Char)
  | [], rest => some rest
  | _ :: _, [] => none
  | a :: as, b :: bs => if a = b then chopLead as bs else none

/-- Does `needle` occur (contiguously) anywhere in the character list? -/
def chFind (needle : List Char) : List Char → Bool
  | [] => (chopLead needle []).isSome
  | c :: rest => (chopLead needle (c :: rest)).isSome || chFind needle rest

/-- Python's `needle in hay` substring test. -/
def strHas (hay needle : String) : Bool := chFind needle.data hay.data

/-- Python `date_str.replace('Z', '+00:00')` (line 225). -/
def replaceZ (s : String) : String :=
  ⟨s.data.flatMap (fun c => if c = 'Z' then "+00:00".data else [c])⟩

/-! ### `datetime.fromisoformat` model -/

/-- A CPython `datetime` value: wall-clock fields plus an optional UTC offset
in microseconds (`none` = naive, `some off` = aware). -/
structure PyDatetime where
  year : Nat
  month : Nat
  day : Nat
  hour : Nat
  minute : Nat
  second : Nat
  micro : Nat
  tzOffset : Option Int
deriving DecidableEq

def isLeap (y : Nat) : Bool := (y % 4 == 0 && y % 100 != 0) || y % 400 == 0

def daysInMonth (y m : Nat) : Nat :=
  if m = 2 then (if isLeap y then 29 else 28)
  else if m = 4 ∨ m = 6 ∨ m = 9 ∨ m = 11 then 30
  else 31

def daysBeforeMonth (y m : Nat) : Nat :=
  (List.range (m - 1)).foldl (fun a i => a + daysInMonth y (i + 1)) 0

/-- Proleptic-Gregorian ordinal day (as in CPython's `datetime.toordinal`). -/
def toOrdinal (y m d : Nat) : Nat :=
  (y - 1) * 365 + (y - 1) / 4 - (y - 1) / 100 + (y - 1) / 400 + daysBeforeMonth y m + d

/-- Wall-clock value of a datetime in microseconds since the calendar origin. -/
def wallMicros (p : PyDatetime) : Nat :=
  ((((toOrdinal p.year p.month p.day) * 24 + p.hour) * 60 + p.minute) * 60 + p.second)
    * 1000000 + p.micro

/-- The key CPython compares: wall clock minus UTC offset (instant for aware
datetimes, plain wall clock for naive ones; naive and aware are never compared
without raising). -/
def keyMicros (p : PyDatetime) : Int :=
  (wallMicros p : Int) - p.tzOffset.getD 0

def num2 (a b : Char) : Option Nat :=
  (digVal a).bind fun x => (digVal b).map fun y => 10 * x + y

def num4 (a b c d : Char) : Option Nat :=
  (num2 a b).bind fun hi => (num2 c d).map fun lo => 100 * hi + lo

/-- Fractional-second part: exactly 3 or 6 digits, value in microseconds. -/
def parseFrac : List Char → Option Nat
  | [a, b, c] =>
    (digVal a).bind fun x => (digVal b).bind fun y => (digVal c).map fun z =>
      (100 * x + 10 * y + z) * 1000
  | [a, b, c, d, e, f] =>
    (digVal a).bind fun x => (digVal b).bind fun y => (digVal c).bind fun z =>
    (digVal d).bind fun w => (digVal e).bind fun v => (digVal f).map fun u =>
      ((((x * 10 + y) * 10 + z) * 10 + w) * 10 + v) * 10 + u
  | _ => none

/-- CPython `_parse_hh_mm_ss_ff`: `HH[:MM[:SS[.fff|.ffffff]]]`, returning
(hours, minutes, seconds, microseconds) without range validation. -/
def parseHMSF : List Char → Option (Nat × Nat × Nat × Nat)
  | a :: b :: rest =>
    (num2 a b).bind fun hh =>
      match rest with
      | [] => some (hh, 0, 0, 0)
      | ':' :: c :: d :: rest2 =>
        (num2 c d).bind fun mm =>
          match rest2 with
          | [] => some (hh, mm, 0, 0)
          | ':' :: e :: f :: rest3 =>
            (num2 e f).bind fun ss =>
              match rest3 with
              | [] => some (hh, mm, ss, 0)
              | '.' :: frac => (parseFrac frac).map fun us => (hh, mm, ss, us)
              | _ => none
          | _ => none
      | _ => none
  | _ => none

def idxOfCh (c : Char) : List Char → Option Nat
  | [] => none
  | x :: xs => if x = c then some 0 else (idxOfCh c xs).map (· + 1)

/-- CPython `_parse_isoformat_time`: time-of-day followed by an optional
timezone suffix.  The timezone split is at the first `-` of the string, else
its first `+`; the suffix (after the sign) must be 5, 8 or 15 characters; an
all-zero offset is UTC regardless of sign; `timezone` requires the offset to
be strictly below 24 hours. -/
def parseTimeTz (cs : List Char) : Option (Nat × Nat × Nat × Nat × Option Int) :=
  if cs.length < 2 then none
  else
    match (match idxOfCh '-' cs with | some i => some i | none => idxOfCh '+' cs) with
    | none => (parseHMSF cs).map fun (h, m, s, u) => (h, m, s, u, none)
    | some i =>
      (parseHMSF (cs.take i)).bind fun (h, m, s, u) =>
        let tzcs := cs.drop (i + 1)
        if tzcs.length = 5 ∨ tzcs.length = 8 ∨ tzcs.length = 15 then
          (parseHMSF tzcs).bind fun (th, tm, ts, tu) =>
            if th = 0 ∧ tm = 0 ∧ ts = 0 ∧ tu = 0 then some (h, m, s, u, some 0)
            else
              let offMag : Int := (((th * 3600 + tm * 60 + ts) * 1000000 + tu : Nat) : Int)
              let off : Int := if cs.get? i = some '-' then -offMag else offMag
              if offMag < 86400000000 then some (h, m, s, u, some off) else none
        else none

/-- CPython `datetime.fromisoformat` (pre-3.11 strict grammar): a 10-character
`YYYY-MM-DD` date, then optionally one arbitrary separator character followed
by a time string, with the `datetime` constructor's range validation.  After a
separator the time string must be present and at least two characters long
(`parseTimeTz`'s length guard): CPython's C parser raises on a bare trailing
separator such as `"2025-05-21T"`. -/
def fromiso (s : String) : Option PyDatetime :=
  match s.data with
  | y1 :: y2 :: y3 :: y4 :: '-' :: m1 :: m2 :: '-' :: d1 :: d2 :: rest =>
    (num4 y1 y2 y3 y4).bind fun y =>
    (num2 m1 m2).bind fun mo =>
    (num2 d1 d2).bind fun dy =>
    (match rest with
     | [] => some (0, 0, 0, 0, (none : Option Int))
     | _ :: tcs => parseTimeTz tcs).bind
      fun (hh, mi, se, us, tz) =>
    if 1 ≤ y ∧ 1 ≤ mo ∧ mo ≤ 12 ∧ 1 ≤ dy ∧ dy ≤ daysInMonth y mo ∧
       hh ≤ 23 ∧ mi ≤ 59 ∧ se ≤ 59
    then some ⟨y, mo, dy, hh, mi, se, us, tz⟩ else none
  | _ => none

/-- Lines 222-229: a token is parsed only when it contains a literal `'T'`;
`'Z'` is first rewritten to `'+00:00'`; any parse failure is swallowed
(`except: pass`), so the parser is total with `none` as the degraded result. -/
def pyParse (s : String) : Option PyDatetime :=
  if s.data.contains 'T' then fromiso (replaceZ s) else none

/-! ### The text-pattern probes (lines 167-185) -/

def months : List String :=
  ["January", "February", "March", "April", "May", "June", "July",
   "August", "September", "October", "November", "December"]

/-- Tail of `\s+\d`: more whitespace then a digit. -/
def afterWs : List Char → Bool
  | [] => false
  | c :: rest => isDig c || (isSpacePy c && afterWs rest)

/-- `\s+\d` at the head of the list. -/
def wsThenDigit : List Char → Bool
  | [] => false
  | c :: rest => isSpacePy c && afterWs rest

/-- `(January|...|December)\s+\d{1,2}` matching at the head of the list. -/
def monthHere (l : List Char) : Bool :=
  months.any fun m =>
    match chopLead m.data l with
    | some rest => wsThenDigit rest
    | none => false

def isUnit (c : Char) : Bool := c = 'w' || c = 'd' || c = 'h' || c = 'm'

/-- `\d{1,2}[wdhm]` matching at the head of the list. -/
def relHere : List Char → Bool
  | c :: d :: e :: _ => isDig c && (isUnit d || (isDig d && isUnit e))
  | [c, d] => isDig c && isUnit d
  | _ => false

/-- `\d{4}-\d{2}-\d{2}` matching at the head of the list. -/
def isoHere : List Char → Bool
  | a :: b :: c :: d :: '-' :: e :: f :: '-' :: g :: h :: _ =>
    isDig a && isDig b && isDig c && isDig d && isDig e && isDig f && isDig g && isDig h
  | _ => false

/-- `re.search`: the head pattern matches at some position. -/
def anyPos (p : List Char → Bool) : List Char → Bool
  | [] => p []
  | c :: rest => p (c :: rest) || anyPos p rest

/-- Lines 168-183: some pattern of `date_patterns` matches somewhere in the
text (the loop keeps the whole text, so pattern order is immaterial). -/
def matchesAnyPattern (s : String) : Bool :=
  anyPos monthHere s.data || anyPos relHere s.data || anyPos isoHere s.data

/-! ### DOM model and the per-candidate extraction body (lines 126-205) -/

/-- A `<time>`-like marker element: its `datetime` attribute value
(`get_attribute`, `none` = attribute absent) and its `text_content()`. -/
structure TimeElem where
  datetimeAttr : Option String
  textContent : Option String
deriving DecidableEq

/-- Lines 149-152: `if datetime_attr:` — a present but empty attribute is
falsy in Python and is skipped. -/
def attrToken (e : TimeElem) : Option String :=
  match e.datetimeAttr with
  | some a => if a = "" then none else some a
  | none => none

/-- Lines 154-157: `if text and text.strip(): post_date = text.strip()`. -/
def textToken (e : TimeElem) : Option String :=
  match e.textContent with
  | some t => if t = "" then none else (if pyStrip t = "" then none else some (pyStrip t))
  | none => none

/-- One iteration of the element loop (lines 148-157): attribute first, then
visible text, interleaved per element. -/
def elemToken (e : TimeElem) : Option String :=
  match attrToken e with
  | some a => some a
  | none => textToken e

/-- The element loop: first element yielding an attribute or text token wins. -/
def scanTimeElems : List TimeElem → Option String
  | [] => none
  | e :: es =>
    match elemToken e with
    | some d => some d
    | none => scanTimeElems es

/-- Result of one `query_selector_all` call inside the selector loop: either
the call raised (swallowed, line 161-162) or it returned a list of elements. -/
inductive QueryResult where
  | raises
  | elems (es : List TimeElem)
deriving DecidableEq

def probeQuery : QueryResult → Option String
  | .raises => none
  | .elems es => scanTimeElems es

/-- All marker elements the selector loop can see, in scan order. -/
def flatElems (qs : List QueryResult) : List TimeElem :=
  qs.flatMap fun q => match q with | .raises => [] | .elems es => es

/-- Observable collaborator actions of the per-candidate body. -/
inductive Ev where
  | click
  | probe
  | escape
deriving DecidableEq

def isEsc : Ev → Bool
  | .escape => true
  | _ => false

/-- The selector loop (lines 145-162): each examined selector contributes one
probe; the loop stops as soon as a date token is found. -/
def timeScan : List QueryResult → List Ev × Option String
  | [] => ([], none)
  | q :: qs =>
    match probeQuery q with
    | some d => ([Ev.probe], some d)
    | none => (Ev.probe :: (timeScan qs).1, (timeScan qs).2)

/-- Lines 174-183: first truthy text whose stripped form matches some
pattern; the token is the stripped text. -/
def patternScan : List (Option String) → Option String
  | [] => none
  | ot :: rest =>
    match ot with
    | none => patternScan rest
    | some t =>
      if t = "" then patternScan rest
      else if matchesAnyPattern (pyStrip t) then some (pyStrip t)
      else patternScan rest

/-- A candidate post element, described by what the collaborators do when the
body (lines 126-205) inspects it. -/
structure Candidate where
  /-- the click on the post link (line 131) or the following wait raises -/
  clickRaises : Bool
  /-- results of the queries for the four `date_selectors` (lines 138-147) -/
  timeQueries : List QueryResult
  /-- the `'article a, article span'` query (line 167) raises (swallowed, 184-185) -/
  textQueryRaises : Bool
  /-- `text_content()` of each element that query returned -/
  textElems : List (Option String)
  /-- the Escape key press at line 194 (or the following wait) raises -/
  escapeRaises : Bool
deriving DecidableEq

/-- Probe events of one candidate: the time-selector scan, then the pattern
query iff no time token was found (line 165). -/
def probeTrace (c : Candidate) : List Ev :=
  match (timeScan c.timeQueries).2 with
  | some _ => (timeScan c.timeQueries).1
  | none => (timeScan c.timeQueries).1 ++ [Ev.probe]

/-- The date token the body appends to `all_dates` (line 189), when clicking
succeeded: the time-selector cascade, else the pattern probe (lines 165-185),
which is skipped if its query raises. -/
def probeResult (c : Candidate) : Option String :=
  match (timeScan c.timeQueries).2 with
  | some d => some d
  | none => if c.textQueryRaises then none else patternScan c.textElems

/-- The per-candidate body (lines 126-205) as (event trace, appended token).
If the click raises, the handler (lines 197-205) still attempts Escape and the
loop continues.  Otherwise the body probes, always presses Escape (line 194);
if that raises, the handler attempts Escape once more, swallowing any failure
(lines 200-204).  A token found before a failing Escape is already appended. -/
def candidateBody (c : Candidate) : List Ev × Option String :=
  if c.clickRaises then ([Ev.click, Ev.escape], none)
  else
    (Ev.click :: probeTrace c ++ [Ev.escape] ++ (if c.escapeRaises then [Ev.escape] else []),
     probeResult c)

def extractToken (c : Candidate) : Option String := (candidateBody c).2

/-- Events of the whole candidate loop: every candidate is processed. -/
def loopEvents (cs : List Candidate) : List Ev :=
  cs.flatMap fun c => (candidateBody c).1

/-! ### The post-link locator (lines 92-116) -/

/-- Result of one `post_link_selectors` query: raised (swallowed, lines
105-106) or a list of candidate links. -/
inductive LinkQuery where
  | raises
  | found (cs : List Candidate)
deriving DecidableEq

/-- Lines 97-106: first selector returning a non-empty list wins (`if links:`);
raising or empty selectors are skipped. -/
def locateLinks : List LinkQuery → List Candidate
  | [] => []
  | .raises :: rest => locateLinks rest
  | .found cs :: rest => if cs.isEmpty then locateLinks rest else cs

/-! ### Results and aggregation (lines 207-287) -/

/-- The `post_count` field is an int in normal results and the marker strings
`"error"` / `"timeout"` in the failure handlers (lines 265, 275, 284). -/
inductive PostCount where
  | count (n : Nat)
  | marker (s : String)
deriving DecidableEq

/-- The result dictionary; `posts_checked` / `dates_found` are `none` for the
variants whose dictionary omits those keys. -/
structure SearchResult where
  username : String
  hashtag : String
  post_count : PostCount
  posts_checked : Option Nat
  dates_found : Option Nat
  most_recent_date : Option String
  status : String
deriving DecidableEq

/-- CPython raises `TypeError` with this message (spelled with an
abbreviated "cannot") when comparing naive and aware datetimes. -/
def mixedCmpMsg : String := "cannot compare offset-naive and offset-aware datetimes"

def awareMismatch (a b : PyDatetime) : Bool := a.tzOffset.isSome != b.tzOffset.isSome

/-- Python `max(parsed_dates, key=lambda x: x[0])` (line 233): running
maximum replaced only on a strictly greater key, so the first maximal element
wins; comparing a naive with an aware datetime raises. -/
def pyMaxAux (cur : PyDatetime × String) :
    List (PyDatetime × String) → Except String (PyDatetime × String)
  | [] => .ok cur
  | x :: xs =>
    if awareMismatch x.1 cur.1 then .error mixedCmpMsg
    else if keyMicros cur.1 < keyMicros x.1 then pyMaxAux x xs
    else pyMaxAux cur xs

/-- Lines 220-229: parse every token, keeping `(parsed, original)` pairs of
the tokens that contain `'T'` and parse; others are silently skipped. -/
def parsedDates (all_dates : List String) : List (PyDatetime × String) :=
  all_dates.filterMap fun d => (pyParse d).map fun p => (p, d)

def pad2 (n : Nat) : String := if n < 10 then "0" ++ toString n else toString n

def pad4 (n : Nat) : String :=
  if n < 10 then "000" ++ toString n
  else if n < 100 then "00" ++ toString n
  else if n < 1000 then "0" ++ toString n
  else toString n

/-- `strftime('%Y-%m-%d %H:%M:%S')` (line 234): the wall-clock fields,
timezone ignored. -/
def fmtDate (p : PyDatetime) : String :=
  pad4 p.year ++ "-" ++ pad2 p.month ++ "-" ++ pad2 p.day ++ " " ++
  pad2 p.hour ++ ":" ++ pad2 p.minute ++ ":" ++ pad2 p.second

/-- Lines 231-258 (plus the handler at 260-268 for the exception `max` can
raise): dispatch on the parsed dates (`nFound` is `len(all_dates)`, `d0` its
first element). -/
def aggregateParsed (username hashtag : String) (totalFound checked nFound : Nat)
    (d0 : String) : List (PyDatetime × String) → SearchResult
  | [] =>
    { username, hashtag := "#" ++ hashtag, post_count := .count totalFound,
      posts_checked := some checked, dates_found := some nFound,
      most_recent_date := some d0, status := "success_unparsed" }
  | p :: ps =>
    match pyMaxAux p ps with
    | .error msg =>
      { username, hashtag := "#" ++ hashtag, post_count := .marker "error",
        posts_checked := none, dates_found := none, most_recent_date := none,
        status := "error: " ++ msg }
    | .ok m =>
      { username, hashtag := "#" ++ hashtag, post_count := .count totalFound,
        posts_checked := some checked, dates_found := some nFound,
        most_recent_date := some (fmtDate m.1), status := "success" }

/-- Lines 207-258: classify the collected `all_dates` into `dates_not_found`,
`success_unparsed`, `success`, or the converted error. -/
def aggregateStep (username hashtag : String) (totalFound checked : Nat)
    (all_dates : List String) : SearchResult :=
  match all_dates with
  | [] =>
    { username, hashtag := "#" ++ hashtag, post_count := .count checked,
      posts_checked := none, dates_found := none, most_recent_date := none,
      status := "dates_not_found" }
  | d0 :: rest =>
    aggregateParsed username hashtag totalFound checked (d0 :: rest).length d0
      (parsedDates (d0 :: rest))

/-- Outcome of the navigation phase (lines 70-77): loaded, `TimeoutError`
(handler at 270-278), or another exception (handler at 279-287). -/
inductive NavOutcome where
  | ok
  | timedOut
  | failed (msg : String)
deriving DecidableEq

/-- Everything the browser collaborators hand to one user's search. -/
structure PageState where
  nav : NavOutcome
  content : String
  linkQueries : List LinkQuery
deriving DecidableEq

/-- `search_hashtag_for_user` (lines 45-287) over a `PageState`. -/
def search_hashtag_for_user (hashtag_base username : String)
    (max_posts_to_check : Nat) (pg : PageState) : SearchResult :=
  let hashtag := hashtag_base ++ "_" ++ username
  match pg.nav with
  | .timedOut =>
    { username, hashtag := "#" ++ hashtag, post_count := .marker "timeout",
      posts_checked := none, dates_found := none, most_recent_date := none,
      status := "timeout" }
  | .failed msg =>
    { username, hashtag := "#" ++ hashtag, post_count := .marker "error",
      posts_checked := none, dates_found := none, most_recent_date := none,
      status := "error: " ++ msg }
  | .ok =>
    if strHas pg.content "No posts yet" then
      { username, hashtag := "#" ++ hashtag, post_count := .count 0,
        posts_checked := none, dates_found := none, most_recent_date := none,
        status := "no_posts" }
    else
      let all_post_links := locateLinks pg.linkQueries
      if all_post_links.isEmpty then
        { username, hashtag := "#" ++ hashtag, post_count := .count 0,
          posts_checked := none, dates_found := none, most_recent_date := none,
          status := "posts_not_accessible" }
      else
        let posts_to_check := all_post_links.take max_posts_to_check
        let all_dates := posts_to_check.filterMap extractToken
        aggregateStep username hashtag all_post_links.length posts_to_check.length all_dates

/-! ### Concrete inputs used by counterexamples and witnesses -/

/-- Both locator selectors return empty element lists. -/
def c4lq : List LinkQuery := [.found [], .found []]

/-- A first marker element with only text `"3h"`, a second one carrying a
machine-readable `datetime` attribute. -/
def c5cand : Candidate :=
  { clickRaises := false,
    timeQueries := [.elems [⟨none, some "3h"⟩, ⟨some "2025-05-21T14:30:00Z", none⟩]],
    textQueryRaises := false, textElems := [], escapeRaises := false }

/-- A marker element exists but yields nothing; a link text matches the
month-day pattern. -/
def c5cand2 : Candidate :=
  { clickRaises := false, timeQueries := [.elems [⟨none, none⟩]],
    textQueryRaises := false, textElems := [some "May 21"], escapeRaises := false }

/-- A candidate from which no probe extracts anything. -/
def noneCand : Candidate :=
  { clickRaises := false, timeQueries := [], textQueryRaises := false,
    textElems := [], escapeRaises := false }

/-- Five candidates found, none yielding a date. -/
def c8lq : List LinkQuery := [.found [noneCand, noneCand, noneCand, noneCand, noneCand]]

/-- A candidate whose first marker element carries `tok` as its attribute. -/
def tokenCand (tok : String) : Candidate :=
  { clickRaises := false, timeQueries := [.elems [⟨some tok, none⟩]],
    textQueryRaises := false, textElems := [], escapeRaises := false }

/-- Candidates yielding one aware and one naive timestamp. -/
def c7lq : List LinkQuery := [.found [tokenCand "2025-01-01T00:00:00Z", tokenCand "2025-01-02T00:00:00"]]

/-- A page with a real, dated post whose content nevertheless contains the
"No posts yet" marker text. -/
def c10lq : List LinkQuery := [.found [tokenCand "2025-05-21T14:30:00Z"]]

/-! ### Helper lemmas -/

theorem strData_append (s t : String) : (s ++ t).data = s.data ++ t.data := rfl

/-- An `error: <msg>` status differs from every string not starting with `e`. -/
theorem err_ne (m s : String) (h : s.data.head? ≠ some 'e') : "error: " ++ m ≠ s := by
  intro he
  apply h
  rw [← he, strData_append]
  rfl

theorem scanTimeElems_append (a b : List TimeElem) :
    scanTimeElems (a ++ b) =
      match scanTimeElems a with
      | some d => some d
      | none => scanTimeElems b := by
  induction a with
  | nil => simp [scanTimeElems]
  | cons e es ih =>
    simp only [List.cons_append, scanTimeElems]
    cases elemToken e <;> simp [ih]

theorem timeScan_flat (qs : List QueryResult) :
    (timeScan qs).2 = scanTimeElems (flatElems qs) := by
  induction qs with
  | nil => rfl
  | cons q qs ih =>
    cases q with
    | raises => simpa [timeScan, probeQuery, flatElems] using ih
    | elems es =>
      simp only [timeScan, probeQuery, flatElems, List.flatMap_cons, scanTimeElems_append]
      cases h : scanTimeElems es <;> simp [h, ih, flatElems]

theorem scanTimeElems_eq_none (l : List TimeElem) :
    scanTimeElems l = none ↔ ∀ e ∈ l, elemToken e = none := by
  induction l with
  | nil => simp [scanTimeElems]
  | cons e es ih =>
    cases h : elemToken e <;> simp [scanTimeElems, h, ih]

/-- Status/most-recent-date invariant of the parsed-dates dispatch. -/
theorem aggP_status_inv (u h : String) (t c n : Nat) (d0 : String)
    (l : List (PyDatetime × String)) :
    ((aggregateParsed u h t c n d0 l).status = "success" ∨
     (aggregateParsed u h t c n d0 l).status = "success_unparsed" ∨
     ∃ m, (aggregateParsed u h t c n d0 l).status = "error: " ++ m) ∧
    ((aggregateParsed u h t c n d0 l).most_recent_date ≠ none ↔
      ((aggregateParsed u h t c n d0 l).status = "success" ∨
       (aggregateParsed u h t c n d0 l).status = "success_unparsed")) := by
  unfold aggregateParsed
  split
  · refine ⟨Or.inr (Or.inl rfl), iff_of_true (by simp) (Or.inr rfl)⟩
  · split
    · refine ⟨Or.inr (Or.inr ⟨_, rfl⟩), ?_⟩
      refine iff_of_false (by simp) ?_
      rintro (hh | hh) <;> exact err_ne _ _ (by decide) hh
    · exact ⟨Or.inl rfl, iff_of_true (by simp) (Or.inl rfl)⟩

/-- Status/most-recent-date invariant of the aggregation block. -/
theorem agg_status_inv (u h : String) (t c : Nat) (ds : List String) :
    ((aggregateStep u h t c ds).status = "success" ∨
     (aggregateStep u h t c ds).status = "success_unparsed" ∨
     (aggregateStep u h t c ds).status = "dates_not_found" ∨
     ∃ m, (aggregateStep u h t c ds).status = "error: " ++ m) ∧
    ((aggregateStep u h t c ds).most_recent_date ≠ none ↔
      ((aggregateStep u h t c ds).status = "success" ∨
       (aggregateStep u h t c ds).status = "success_unparsed")) := by
  unfold aggregateStep
  split
  · refine ⟨Or.inr (Or.inr (Or.inl rfl)), ?_⟩
    refine iff_of_false (by simp) ?_
    rintro (hh | hh) <;> simp at hh
  · obtain ⟨hs, hm⟩ := aggP_status_inv u h t c _ _ (parsedDates _)
    refine ⟨?_, hm⟩
    rcases hs with hs | hs | hs
    · exact Or.inl hs
    · exact Or.inr (Or.inl hs)
    · exact Or.inr (Or.inr (Or.inr hs))

/-- `post_count` per parsed-dates branch. -/
theorem aggP_post_count (u h : String) (t c n : Nat) (d0 : String)
    (l : List (PyDatetime × String)) :
    ((aggregateParsed u h t c n d0 l).status = "success" ∨
     (aggregateParsed u h t c n d0 l).status = "success_unparsed") →
    (aggregateParsed u h t c n d0 l).post_count = .count t := by
  unfold aggregateParsed
  split
  · exact fun _ => rfl
  · split
    · rintro (hh | hh) <;> exact absurd hh (err_ne _ _ (by decide))
    · exact fun _ => rfl

/-- `post_count` per aggregation branch: the inspected count in
`dates_not_found`, the located total in the success variants. -/
theorem agg_post_count (u h : String) (t c : Nat) (ds : List String) :
    ((aggregateStep u h t c ds).status = "dates_not_found" →
      (aggregateStep u h t c ds).post_count = .count c) ∧
    (((aggregateStep u h t c ds).status = "success" ∨
      (aggregateStep u h t c ds).status = "success_unparsed") →
      (aggregateStep u h t c ds).post_count = .count t) := by
  unfold aggregateStep
  split
  · refine ⟨fun _ => rfl, ?_⟩
    rintro (hh | hh) <;> simp at hh
  · refine ⟨?_, aggP_post_count u h t c _ _ (parsedDates _)⟩
    intro hh
    obtain ⟨hs, _⟩ := aggP_status_inv u h t c _ _ (parsedDates _)
    rcases hs with hs | hs | ⟨m, hs⟩
    · rw [hh] at hs; simp at hs
    · rw [hh] at hs; simp at hs
    · rw [hh] at hs; exact absurd hs.symm (err_ne _ _ (by decide))

/-- Reduction of the search to the aggregation step once navigation
succeeded, the page has no "No posts yet" marker, and the locator found
candidates. -/
theorem search_reaches_agg (hb u : String) (mp : Nat) (content : String)
    (lq : List LinkQuery) (hc : strHas content "No posts yet" = false)
    (hl : (locateLinks lq).isEmpty = false) :
    search_hashtag_for_user hb u mp ⟨.ok, content, lq⟩ =
      aggregateStep u (hb ++ "_" ++ u) (locateLinks lq).length
        ((locateLinks lq).take mp).length
        (((locateLinks lq).take mp).filterMap extractToken) := by
  simp [search_hashtag_for_user, hc, hl]

/-! ### Claim theorems -/

/-- C2: every result's status is in the closed set
`success, success_unparsed, no_posts, posts_not_accessible, dates_not_found,
timeout` or is prefixed `error: `, and `most_recent_date` is non-null exactly
for `success` and `success_unparsed`. -/
theorem C2_status_invariant (hb u : String) (mp : Nat) (pg : PageState) :
    ((search_hashtag_for_user hb u mp pg).status = "success" ∨
     (search_hashtag_for_user hb u mp pg).status = "success_unparsed" ∨
     (search_hashtag_for_user hb u mp pg).status = "no_posts" ∨
     (search_hashtag_for_user hb u mp pg).status = "posts_not_accessible" ∨
     (search_hashtag_for_user hb u mp pg).status = "dates_not_found" ∨
     (search_hashtag_for_user hb u mp pg).status = "timeout" ∨
     ∃ m, (search_hashtag_for_user hb u mp pg).status = "error: " ++ m) ∧
    ((search_hashtag_for_user hb u mp pg).most_recent_date ≠ none ↔
      ((search_hashtag_for_user hb u mp pg).status = "success" ∨
       (search_hashtag_for_user hb u mp pg).status = "success_unparsed")) := by
  obtain ⟨nav, content, lq⟩ := pg
  cases nav with
  | timedOut =>
    refine ⟨Or.inr (Or.inr (Or.inr (Or.inr (Or.inr (Or.inl rfl))))), ?_⟩
    refine iff_of_false (by simp [search_hashtag_for_user]) ?_
    rintro (hh | hh) <;> simp [search_hashtag_for_user] at hh
  | failed msg =>
    refine ⟨Or.inr (Or.inr (Or.inr (Or.inr (Or.inr (Or.inr ⟨msg, rfl⟩))))), ?_⟩
    refine iff_of_false (by simp [search_hashtag_for_user]) ?_
    rintro (hh | hh) <;> exact err_ne _ _ (by decide) hh
  | ok =>
    by_cases hc : strHas content "No posts yet" = true
    · refine ⟨Or.inr (Or.inr (Or.inl (by simp [search_hashtag_for_user, hc]))), ?_⟩
      refine iff_of_false (by simp [search_hashtag_for_user, hc]) ?_
      rintro (hh | hh) <;> simp [search_hashtag_for_user, hc] at hh
    · have hc2 : strHas content "No posts yet" = false := by
        simpa using hc
      by_cases hl : (locateLinks lq).isEmpty = true
      · refine ⟨Or.inr (Or.inr (Or.inr (Or.inl (by simp [search_hashtag_for_user, hc2, hl])))), ?_⟩
        refine iff_of_false (by simp [search_hashtag_for_user, hc2, hl]) ?_
        rintro (hh | hh) <;> simp [search_hashtag_for_user, hc2, hl] at hh
      · have hl2 : (locateLinks lq).isEmpty = false := by
          simpa using hl
        rw [search_reaches_agg hb u mp content lq hc2 hl2]
        obtain ⟨hs, hm⟩ := agg_status_inv u (hb ++ "_" ++ u) (locateLinks lq).length
          ((locateLinks lq).take mp).length (((locateLinks lq).take mp).filterMap extractToken)
        refine ⟨?_, hm⟩
        rcases hs with hs | hs | hs | hs
        · exact Or.inl hs
        · exact Or.inr (Or.inl hs)
        · exact Or.inr (Or.inr (Or.inr (Or.inr (Or.inl hs))))
        · exact Or.inr (Or.inr (Or.inr (Or.inr (Or.inr (Or.inr hs)))))

/-- C3: if every collected token fails to parse and the sequence is
non-empty, aggregation returns `success_unparsed` and `most_recent_date` is
the first token in original order, verbatim. -/
theorem C3_unparsed_first_token (u h : String) (t c : Nat) (ds : List String)
    (hne : ds ≠ [])
    (hnp : ∀ s ∈ ds, pyParse s = none) :
    (aggregateStep u h t c ds).status = "success_unparsed" ∧
    (aggregateStep u h t c ds).most_recent_date = ds.head? := by
  cases ds with
  | nil => exact absurd rfl hne
  | cons d0 rest =>
    have hpd : parsedDates (d0 :: rest) = [] := by
      simp only [parsedDates, List.filterMap_eq_nil_iff]
      intro s hs
      rw [hnp s hs]
      rfl
    simp only [aggregateStep]
    rw [hpd]
    exact ⟨rfl, rfl⟩

/-- C3 witness: two relative-shorthand tokens. -/
theorem C3_witness :
    (aggregateStep "alice" "trip_alice" 2 2 ["3h", "24w"]).status = "success_unparsed" :=
  (C3_unparsed_first_token "alice" "trip_alice" 2 2 ["3h", "24w"] (by decide) (by decide)).1

/-- C4 counterexample: with the locator finding zero candidates (and no
"No posts yet" marker in the page), the status is `posts_not_accessible`,
not `no_posts` as the claim states. -/
theorem C4_counterexample :
    (search_hashtag_for_user "trip" "alice" 12 ⟨.ok, "page body", c4lq⟩).status =
      "posts_not_accessible" ∧
    (search_hashtag_for_user "trip" "alice" 12 ⟨.ok, "page body", c4lq⟩).status ≠
      "no_posts" := by
  exact ⟨by decide, by decide⟩

/-- C4 (amended): whenever navigation succeeded, the page lacks the
"No posts yet" marker, and the locator finds zero candidates, the result has
status `posts_not_accessible` with `post_count` 0 and null
`most_recent_date` (the `no_posts` status is produced by the earlier page
marker check instead). -/
theorem C4_locator_empty (hb u : String) (mp : Nat) (content : String)
    (lq : List LinkQuery) (hc : strHas content "No posts yet" = false)
    (hloc : locateLinks lq = []) :
    search_hashtag_for_user hb u mp ⟨.ok, content, lq⟩ =
      { username := u, hashtag := "#" ++ (hb ++ "_" ++ u), post_count := .count 0,
        posts_checked := none, dates_found := none, most_recent_date := none,
        status := "posts_not_accessible" } := by
  simp [search_hashtag_for_user, hc, hloc]

/-- C4 witness. -/
theorem C4_witness :
    search_hashtag_for_user "trip" "alice" 12 ⟨.ok, "page body", c4lq⟩ =
      { username := "alice", hashtag := "#" ++ ("trip" ++ "_" ++ "alice"),
        post_count := .count 0, posts_checked := none, dates_found := none,
        most_recent_date := none, status := "posts_not_accessible" } :=
  C4_locator_empty "trip" "alice" 12 "page body" c4lq (by decide) (by decide)

/-- C5 counterexample: the extractor does not try the attribute probe across
all marker elements before any text probe — the probes are interleaved per
element.  With a first marker element carrying only text `"3h"` and a second
carrying a machine-readable attribute, the token is `"3h"`; and with a marker
element present but empty, the pattern probe still runs (the claim says it
runs only when no marker element exists). -/
theorem C5_counterexample :
    extractToken c5cand = some "3h" ∧
    attrToken (TimeElem.mk (some "2025-05-21T14:30:00Z") none) =
      some "2025-05-21T14:30:00Z" ∧
    extractToken c5cand2 = some "May 21" := by
  exact ⟨by decide, by decide, by decide⟩

/-- C5 (amended): per candidate, marker elements are scanned in order with
the attribute and text probes interleaved per element (attribute first, then
that element's trimmed text); the first element yielding either provides the
token; the pattern scan over link/label text runs whenever no marker element
yielded a token (also when marker elements exist but are all empty), and is
skipped when its query raises; the result is Absent exactly when every probe
fails. -/
theorem C5_probe_order (c : Candidate) (h : c.clickRaises = false) :
    extractToken c =
      (match scanTimeElems (flatElems c.timeQueries) with
       | some d => some d
       | none => if c.textQueryRaises then none else patternScan c.textElems) ∧
    (extractToken c = none ↔
      ((∀ e ∈ flatElems c.timeQueries, elemToken e = none) ∧
       (c.textQueryRaises = true ∨ patternScan c.textElems = none))) := by
  have h1 : extractToken c = probeResult c := by
    simp [extractToken, candidateBody, h]
  have h2 : probeResult c =
      (match scanTimeElems (flatElems c.timeQueries) with
       | some d => some d
       | none => if c.textQueryRaises then none else patternScan c.textElems) := by
    unfold probeResult
    rw [timeScan_flat]
  refine ⟨h1.trans h2, ?_⟩
  rw [h1, h2]
  rcases hs : scanTimeElems (flatElems c.timeQueries) with _ | d
  · have hall : ∀ e ∈ flatElems c.timeQueries, elemToken e = none :=
      (scanTimeElems_eq_none _).mp hs
    constructor
    · intro hif
      refine ⟨hall, ?_⟩
      by_cases ht : c.textQueryRaises = true
      · exact Or.inl ht
      · rw [if_neg ht] at hif
        exact Or.inr hif
    · rintro ⟨-, ht | hp⟩
      · rw [if_pos ht]
      · by_cases ht : c.textQueryRaises = true
        · rw [if_pos ht]
        · rw [if_neg ht]
          exact hp
  · have hnall : ¬ ∀ e ∈ flatElems c.timeQueries, elemToken e = none := by
      intro hall
      have h0 := (scanTimeElems_eq_none _).mpr hall
      rw [hs] at h0
      cases h0
    simp [hnall]

/-- C5 witness. -/
theorem C5_witness :
    extractToken c5cand =
      (match scanTimeElems (flatElems c5cand.timeQueries) with
       | some d => some d
       | none => if c5cand.textQueryRaises then none
                 else patternScan c5cand.textElems) :=
  (C5_probe_order c5cand rfl).1

/-- C7: exceptions reaching the per-user boundary are converted, never
propagated: a navigation timeout yields the `timeout` result with null date
and the `timeout` marker as `post_count`; any other navigation failure
yields `error: <message>` with the `error` marker; and an exception raised
inside processing (here: the `TypeError` from comparing a naive with an
aware timestamp) is also converted to `error: <message>`.  The embedding is
a total function, so a `SearchResult` is produced for every processed user. -/
theorem C7_error_boundary (hb u content : String) (mp : Nat)
    (lq : List LinkQuery) (msg : String) :
    search_hashtag_for_user hb u mp ⟨.timedOut, content, lq⟩ =
      { username := u, hashtag := "#" ++ (hb ++ "_" ++ u),
        post_count := .marker "timeout", posts_checked := none,
        dates_found := none, most_recent_date := none, status := "timeout" } ∧
    search_hashtag_for_user hb u mp ⟨.failed msg, content, lq⟩ =
      { username := u, hashtag := "#" ++ (hb ++ "_" ++ u),
        post_count := .marker "error", posts_checked := none,
        dates_found := none, most_recent_date := none,
        status := "error: " ++ msg } ∧
    search_hashtag_for_user "trip" "alice" 12 ⟨.ok, "page body", c7lq⟩ =
      { username := "alice", hashtag := "#" ++ ("trip" ++ "_" ++ "alice"),
        post_count := .marker "error", posts_checked := none,
        dates_found := none, most_recent_date := none,
        status := "error: " ++ mixedCmpMsg } := by
  refine ⟨rfl, rfl, by decide⟩

/-- C8 counterexample: five candidates found, cap 3, no dates extracted:
the `dates_not_found` result reports `post_count = 3` (the number
inspected), not the total of 5 found by the locator as the claim states. -/
theorem C8_counterexample :
    (search_hashtag_for_user "trip" "alice" 3 ⟨.ok, "page body", c8lq⟩).status =
      "dates_not_found" ∧
    (locateLinks c8lq).length = 5 ∧
    (search_hashtag_for_user "trip" "alice" 3 ⟨.ok, "page body", c8lq⟩).post_count =
      .count 3 ∧
    (search_hashtag_for_user "trip" "alice" 3 ⟨.ok, "page body", c8lq⟩).post_count ≠
      .count 5 := by
  exact ⟨by decide, by decide, by decide, by decide⟩

/-- C8 (amended): once candidates were located, `post_count` equals the
total number found in `success` and `success_unparsed` results, but equals
the number of candidates actually inspected under the max-posts cap in a
`dates_not_found` result. -/
theorem C8_post_count (hb u : String) (mp : Nat) (content : String)
    (lq : List LinkQuery) (hc : strHas content "No posts yet" = false)
    (hl : (locateLinks lq).isEmpty = false) :
    ((search_hashtag_for_user hb u mp ⟨.ok, content, lq⟩).status = "dates_not_found" →
      (search_hashtag_for_user hb u mp ⟨.ok, content, lq⟩).post_count =
        .count ((locateLinks lq).take mp).length) ∧
    (((search_hashtag_for_user hb u mp ⟨.ok, content, lq⟩).status = "success" ∨
      (search_hashtag_for_user hb u mp ⟨.ok, content, lq⟩).status = "success_unparsed") →
      (search_hashtag_for_user hb u mp ⟨.ok, content, lq⟩).post_count =
        .count (locateLinks lq).length) := by
  rw [search_reaches_agg hb u mp content lq hc hl]
  exact agg_post_count u (hb ++ "_" ++ u) (locateLinks lq).length
    ((locateLinks lq).take mp).length (((locateLinks lq).take mp).filterMap extractToken)

/-- C8 witness. -/
theorem C8_witness :
    (search_hashtag_for_user "trip" "alice" 3 ⟨.ok, "page body", c8lq⟩).post_count =
      .count ((locateLinks c8lq).take 3).length :=
  (C8_post_count "trip" "alice" 3 "page body" c8lq (by decide) (by decide)).1 (by decide)

/-- C9: for every candidate, the close action (Escape) is the last event of
the per-candidate body on every exit path — after all clicking and probing,
also when the click raised or the first Escape itself raised (the retry's
failure is swallowed) — and every candidate of the loop contributes at least
one close attempt, so the loop always continues to the next candidate. -/
theorem C9_close_always :
    (∀ c : Candidate, ∃ pre, (candidateBody c).1 = pre ++ [Ev.escape]) ∧
    (∀ cs : List Candidate, cs.length ≤ (loopEvents cs).countP isEsc) := by
  have h1 : ∀ c : Candidate, ∃ pre, (candidateBody c).1 = pre ++ [Ev.escape] := by
    intro c
    unfold candidateBody
    by_cases hc : c.clickRaises = true
    · exact ⟨[Ev.click], by simp [hc]⟩
    · by_cases he : c.escapeRaises = true
      · exact ⟨Ev.click :: (probeTrace c ++ [Ev.escape]), by simp [hc, he]⟩
      · exact ⟨Ev.click :: probeTrace c, by simp [hc, he]⟩
  refine ⟨h1, ?_⟩
  intro cs
  induction cs with
  | nil => simp [loopEvents]
  | cons c cs ih =>
    obtain ⟨pre, hp⟩ := h1 c
    have hle : loopEvents (c :: cs) = (candidateBody c).1 ++ loopEvents cs := by
      simp [loopEvents]
    rw [hle, List.countP_append, hp, List.countP_append]
    have h2 : List.countP isEsc [Ev.escape] = 1 := rfl
    simp only [List.length_cons, h2]
    omega

/-- C10: whenever the rendered content contains the substring
"No posts yet" anywhere, the result is `no_posts` with `post_count` 0 and
null `most_recent_date`, and the result is independent of whatever the
locator would have found — even when dated posts are present. -/
theorem C10_marker_shortcut (hb u : String) (mp : Nat) (content : String)
    (lq lq2 : List LinkQuery) (h : strHas content "No posts yet" = true) :
    search_hashtag_for_user hb u mp ⟨.ok, content, lq⟩ =
      { username := u, hashtag := "#" ++ (hb ++ "_" ++ u), post_count := .count 0,
        posts_checked := none, dates_found := none, most_recent_date := none,
        status := "no_posts" } ∧
    search_hashtag_for_user hb u mp ⟨.ok, content, lq⟩ =
      search_hashtag_for_user hb u mp ⟨.ok, content, lq2⟩ := by
  constructor
  · simp [search_hashtag_for_user, h]
  · simp [search_hashtag_for_user, h]

/-- C10 witness: marker text inside a caption while a dated post exists. -/
theorem C10_witness :
    search_hashtag_for_user "trip" "alice" 12 ⟨.ok, "caption: No posts yet!", c10lq⟩ =
      { username := "alice", hashtag := "#" ++ ("trip" ++ "_" ++ "alice"),
        post_count := .count 0, posts_checked := none, dates_found := none,
        most_recent_date := none, status := "no_posts" } ∧
    search_hashtag_for_user "trip" "alice" 12 ⟨.ok, "caption: No posts yet!", c10lq⟩ =
      search_hashtag_for_user "trip" "alice" 12 ⟨.ok, "caption: No posts yet!", []⟩ :=
  C10_marker_shortcut "trip" "alice" 12 "caption: No posts yet!" c10lq [] (by decide)

end InstaHashtag
